import Mathlib

set_option maxHeartbeats 1000000

/-- A KMS key resource record as enumerated by the provider list API and handed
to each action as a dictionary. Only the fields read by the actions are listed
first; key_rotation_enabled and domain_id appear in policy examples and are
carried to state frame properties. -/
structure Resource where
  key_id : String
  key_state : String
  key_spec : String
  default_key_flag : String
  keystore_id : Int
  key_rotation_enabled : String
  domain_id : String
  deriving Repr, DecidableEq

/-- Body of the enable/disable key and enable/disable rotation requests:
OperateKeyRequestBody(key_id=..., sequence=uuid4().hex). -/
structure OperateKeyRequestBody where
  key_id : String
  sequence : String
  deriving Repr, DecidableEq

/-- Body of the list keys request: ListKeysRequestBody(key_spec=..., limit=...). -/
structure ListKeysRequestBody where
  key_spec : String
  limit : String
  deriving Repr, DecidableEq

/-- Body of the create key request: CreateKeyRequestBody(key_alias=...). -/
structure CreateKeyRequestBody where
  key_alias : String
  deriving Repr, DecidableEq

/-- One entry of the list keys response; the code only reads its key_alias. -/
structure KeyDetails where
  key_alias : String
  deriving Repr, DecidableEq

/-- Response of client.list_keys: the code only reads key_details. -/
structure ListKeysResponse where
  key_details : List KeyDetails
  deriving Repr, DecidableEq

/-- One SDK request issued by an action, recorded in the order the code
issues them. -/
inductive SdkCall where
  | enableKeyRotation (body : OperateKeyRequestBody)
  | disableKeyRotation (body : OperateKeyRequestBody)
  | enableKey (body : OperateKeyRequestBody)
  | disableKey (body : OperateKeyRequestBody)
  | listKeys (body : ListKeysRequestBody)
  | createKey (body : CreateKeyRequestBody)
  deriving Repr, DecidableEq

/-- The SDK client obtained from self.manager.get_client(), modelled as an
oracle: each endpoint maps a request body to a response or a raised
exception. Resp is the opaque type of the mutating call responses and Exc
the type of exceptions. -/
structure Client (Resp Exc : Type) where
  enable_key_rotation : OperateKeyRequestBody → Except Exc Resp
  disable_key_rotation : OperateKeyRequestBody → Except Exc Resp
  enable_key : OperateKeyRequestBody → Except Exc Resp
  disable_key : OperateKeyRequestBody → Except Exc Resp
  list_keys : ListKeysRequestBody → Except Exc ListKeysResponse
  create_key : CreateKeyRequestBody → Except Exc Resp

/-- A value returned by an action body: the literal 0 of the eligibility
early returns, the SDK response returned unchanged, or the implicit None of
createKey.process. -/
inductive ActionRet (Resp : Type) where
  | zero
  | response (r : Resp)
  | noneRet
  deriving Repr, DecidableEq

deriving instance DecidableEq for Except

/-- The observable outcome of running one action on one resource: the value
returned or the exception propagated, the chronological list of SDK requests
issued, and the resource dictionary as it stands when the action ends. -/
structure Outcome (Resp Exc : Type) where
  result : Except Exc (ActionRet Resp)
  calls : List SdkCall
  finalResource : Resource
  deriving Repr, DecidableEq

/-- The notSupportList literal inside rotationKey.perform_action. -/
def rotationKey.notSupportList : List String :=
  ["RSA_2048", "RSA_3072", "RSA_4096", "EC_P256", "EC_P384",
   "SM2", "ML_DSA_44", "ML_DSA_65", "ML_DSA_87"]

/-- perform_action of the enable_key_rotation action (class rotationKey):
four early returns of 0, then one enable_key_rotation SDK call whose
exception, if any, is re-raised unchanged. The fresh uuid4().hex is the seq
argument; self.manager.get_client() is the self argument. -/
def rotationKey.perform_action {Resp Exc : Type} (self : Client Resp Exc)
    (resource : Resource) (seq : String) : Outcome Resp Exc :=
  if resource.default_key_flag == "1" then
    { result := Except.ok ActionRet.zero, calls := [], finalResource := resource }
  else if rotationKey.notSupportList.contains resource.key_spec then
    { result := Except.ok ActionRet.zero, calls := [], finalResource := resource }
  else if !(resource.keystore_id == 0) then
    { result := Except.ok ActionRet.zero, calls := [], finalResource := resource }
  else if !((["2", "3", "4"] : List String).contains resource.key_state) then
    { result := Except.ok ActionRet.zero, calls := [], finalResource := resource }
  else
    match self.enable_key_rotation { key_id := resource.key_id, sequence := seq } with
    | Except.error e =>
      { result := Except.error e,
        calls := [SdkCall.enableKeyRotation { key_id := resource.key_id, sequence := seq }],
        finalResource := resource }
    | Except.ok response =>
      { result := Except.ok (ActionRet.response response),
        calls := [SdkCall.enableKeyRotation { key_id := resource.key_id, sequence := seq }],
        finalResource := resource }

/-- The notSupportList literal inside disableRotationKey.perform_action,
written out separately in the source. -/
def disableRotationKey.notSupportList : List String :=
  ["RSA_2048", "RSA_3072", "RSA_4096", "EC_P256",
   "EC_P384", "SM2", "ML_DSA_44",
   "ML_DSA_65", "ML_DSA_87"]

/-- perform_action of the disable_key_rotation action (class
disableRotationKey): the same four early returns of 0, then one
disable_key_rotation SDK call whose exception is re-raised unchanged. -/
def disableRotationKey.perform_action {Resp Exc : Type} (self : Client Resp Exc)
    (resource : Resource) (seq : String) : Outcome Resp Exc :=
  if resource.default_key_flag == "1" then
    { result := Except.ok ActionRet.zero, calls := [], finalResource := resource }
  else if disableRotationKey.notSupportList.contains resource.key_spec then
    { result := Except.ok ActionRet.zero, calls := [], finalResource := resource }
  else if !(resource.keystore_id == 0) then
    { result := Except.ok ActionRet.zero, calls := [], finalResource := resource }
  else if !((["2", "3", "4"] : List String).contains resource.key_state) then
    { result := Except.ok ActionRet.zero, calls := [], finalResource := resource }
  else
    match self.disable_key_rotation { key_id := resource.key_id, sequence := seq } with
    | Except.error e =>
      { result := Except.error e,
        calls := [SdkCall.disableKeyRotation { key_id := resource.key_id, sequence := seq }],
        finalResource := resource }
    | Except.ok response =>
      { result := Except.ok (ActionRet.response response),
        calls := [SdkCall.disableKeyRotation { key_id := resource.key_id, sequence := seq }],
        finalResource := resource }

/-- perform_action of the enable_key action (class enableKey): no eligibility
check, one enable_key SDK call, exception re-raised unchanged. -/
def enableKey.perform_action {Resp Exc : Type} (self : Client Resp Exc)
    (resource : Resource) (seq : String) : Outcome Resp Exc :=
  match self.enable_key { key_id := resource.key_id, sequence := seq } with
  | Except.error e =>
    { result := Except.error e,
      calls := [SdkCall.enableKey { key_id := resource.key_id, sequence := seq }],
      finalResource := resource }
  | Except.ok response =>
    { result := Except.ok (ActionRet.response response),
      calls := [SdkCall.enableKey { key_id := resource.key_id, sequence := seq }],
      finalResource := resource }

/-- perform_action of the disable_key action (class disableKey): no
eligibility check, one disable_key SDK call, exception re-raised unchanged. -/
def disableKey.perform_action {Resp Exc : Type} (self : Client Resp Exc)
    (resource : Resource) (seq : String) : Outcome Resp Exc :=
  match self.disable_key { key_id := resource.key_id, sequence := seq } with
  | Except.error e =>
    { result := Except.error e,
      calls := [SdkCall.disableKey { key_id := resource.key_id, sequence := seq }],
      finalResource := resource }
  | Except.ok response =>
    { result := Except.ok (ActionRet.response response),
      calls := [SdkCall.disableKey { key_id := resource.key_id, sequence := seq }],
      finalResource := resource }

/-- The policy statement data self.data of the create-key action: the two
schema parameters, each possibly absent. -/
structure PolicyData where
  key_aliases : Option (List String)
  obs_url : Option String
  deriving Repr, DecidableEq

/-- The for loop of createKey.process over key_aliases: an alias found in arr
is skipped; otherwise one create_key SDK call is issued, its response printed
and discarded, and an exception is re-raised unchanged, ending the loop. The
arr set is never extended inside the loop. -/
def createKey.createLoop {Resp Exc : Type} (self : Client Resp Exc)
    (arr : List String) : List String → Except Exc Unit × List SdkCall
  | [] => (Except.ok (), [])
  | a :: rest =>
    if arr.contains a then
      createKey.createLoop self arr rest
    else
      match self.create_key { key_alias := a } with
      | Except.error e => (Except.error e, [SdkCall.createKey { key_alias := a }])
      | Except.ok _ =>
        let t := createKey.createLoop self arr rest
        (t.1, SdkCall.createKey { key_alias := a } :: t.2)

/-- process of the create-key action (class createKey): one list_keys call
with the fixed body of key_spec ALL and limit 1000 (an exception here is not
caught and propagates), then the arr set seeded with the literal default and
every key_alias of the response, then the create loop. The method returns
None. -/
def createKey.process {Resp Exc : Type} (self : Client Resp Exc)
    (data : PolicyData) (resource : Resource) : Outcome Resp Exc :=
  let key_aliases := data.key_aliases.getD []
  let listBody : ListKeysRequestBody := { key_spec := "ALL", limit := "1000" }
  match self.list_keys listBody with
  | Except.error e =>
    { result := Except.error e,
      calls := [SdkCall.listKeys listBody],
      finalResource := resource }
  | Except.ok listKeyResponse =>
    let arr := "default" :: listKeyResponse.key_details.map KeyDetails.key_alias
    let t := createKey.createLoop self arr key_aliases
    { result :=
        match t.1 with
        | Except.error e => Except.error e
        | Except.ok _ => Except.ok ActionRet.noneRet,
      calls := SdkCall.listKeys listBody :: t.2,
      finalResource := resource }

/-- Holds of the list_keys SDK call only; used to count list calls in a
trace. -/
def SdkCall.isListKeys : SdkCall → Bool
  | SdkCall.listKeys _ => true
  | _ => false

/-- Holds of the create_key SDK call only; used to count create calls in a
trace. -/
def SdkCall.isCreateKey : SdkCall → Bool
  | SdkCall.createKey _ => true
  | _ => false

/-- A policy schema produced by type_schema: the type name and the extra
declared parameters as pairs of parameter name and JSON type. -/
structure TypeSchema where
  typeName : String
  props : List (String × String)
  deriving Repr, DecidableEq

/-- schema = type_schema("enable_key_rotation"). -/
def rotationKey.schema : TypeSchema :=
  { typeName := "enable_key_rotation", props := [] }

/-- schema = type_schema("disable_key_rotation"). -/
def disableRotationKey.schema : TypeSchema :=
  { typeName := "disable_key_rotation", props := [] }

/-- schema = type_schema("enable_key"). -/
def enableKey.schema : TypeSchema :=
  { typeName := "enable_key", props := [] }

/-- schema = type_schema("disable_key"). -/
def disableKey.schema : TypeSchema :=
  { typeName := "disable_key", props := [] }

/-- schema = type_schema("create-key", key_aliases of JSON type array,
obs_url of JSON type string). -/
def createKey.schema : TypeSchema :=
  { typeName := "create-key",
    props := [("key_aliases", "array"), ("obs_url", "string")] }

/-- schema = type_schema("all_keys_disable", rinherit=ValueFilter.schema);
the inherited ValueFilter properties are outside this file, so only the
declared type name is modelled. -/
def instanceDisable.schema : TypeSchema :=
  { typeName := "all_keys_disable", props := [] }

/-- The actions registered on Kms.action_registry by the register decorators,
in source order. -/
def Kms.action_registry : List TypeSchema :=
  [rotationKey.schema, disableRotationKey.schema, enableKey.schema,
   disableKey.schema, createKey.schema]

/-- The filters registered on Kms.filter_registry by the register decorator. -/
def Kms.filter_registry : List TypeSchema :=
  [instanceDisable.schema]

/-- The resource type name under which the Kms manager is registered. -/
def Kms.resourceName : String := "kms"

/-- A concrete client on which every SDK call succeeds; the list call reports
one existing key aliased existing. -/
def okClient : Client Nat String :=
  { enable_key_rotation := fun _ => Except.ok 1,
    disable_key_rotation := fun _ => Except.ok 2,
    enable_key := fun _ => Except.ok 3,
    disable_key := fun _ => Except.ok 4,
    list_keys := fun _ => Except.ok { key_details := [{ key_alias := "existing" }] },
    create_key := fun _ => Except.ok 7 }

/-- A concrete client on which every SDK call raises the exception boom. -/
def errClient : Client Nat String :=
  { enable_key_rotation := fun _ => Except.error "boom",
    disable_key_rotation := fun _ => Except.error "boom",
    enable_key := fun _ => Except.error "boom",
    disable_key := fun _ => Except.error "boom",
    list_keys := fun _ => Except.error "boom",
    create_key := fun _ => Except.error "boom" }

/-- A concrete client whose list call succeeds with one existing alias but
whose create call raises. -/
def listOkCreateErrClient : Client Nat String :=
  { enable_key_rotation := fun _ => Except.ok 1,
    disable_key_rotation := fun _ => Except.ok 2,
    enable_key := fun _ => Except.ok 3,
    disable_key := fun _ => Except.ok 4,
    list_keys := fun _ => Except.ok { key_details := [{ key_alias := "existing" }] },
    create_key := fun _ => Except.error "boom" }

/-- A concrete resource passing all four eligibility checks. -/
def rEligible : Resource :=
  { key_id := "k1", key_state := "2", key_spec := "AES_256",
    default_key_flag := "0", keystore_id := 0,
    key_rotation_enabled := "False", domain_id := "aaaaaaa" }

/-- A concrete resource failing the first eligibility check: it is a default
key. -/
def rDefaultKey : Resource :=
  { key_id := "k2", key_state := "2", key_spec := "AES_256",
    default_key_flag := "1", keystore_id := 0,
    key_rotation_enabled := "False", domain_id := "aaaaaaa" }

/-- The eligibility predicate stated by the specification for the rotation
actions: default_key_flag is not 1, key_spec is outside the unsupported set,
keystore_id equals 0, and key_state is one of 2, 3, 4. -/
def rotationEligible (r : Resource) : Bool :=
  !(r.default_key_flag == "1") &&
    !(rotationKey.notSupportList.contains r.key_spec) &&
    (r.keystore_id == 0) &&
    (["2", "3", "4"] : List String).contains r.key_state

/-- The two copies of the notSupportList literal are the same set. -/
lemma notSupportList_agree :
    disableRotationKey.notSupportList = rotationKey.notSupportList := rfl

/-- Characterization of rotationKey.perform_action: the four early returns
collapse to the eligibility predicate; an eligible resource leads to the
single SDK call. -/
lemma rotationKey_perform_eq {Resp Exc : Type} (c : Client Resp Exc)
    (r : Resource) (s : String) :
    rotationKey.perform_action c r s =
      if rotationEligible r then
        match c.enable_key_rotation { key_id := r.key_id, sequence := s } with
        | Except.error e =>
          { result := Except.error e,
            calls := [SdkCall.enableKeyRotation { key_id := r.key_id, sequence := s }],
            finalResource := r }
        | Except.ok v =>
          { result := Except.ok (ActionRet.response v),
            calls := [SdkCall.enableKeyRotation { key_id := r.key_id, sequence := s }],
            finalResource := r }
      else
        { result := Except.ok ActionRet.zero, calls := [], finalResource := r } := by
  cases h1 : (r.default_key_flag == "1") <;>
    cases h2 : rotationKey.notSupportList.contains r.key_spec <;>
      cases h3 : (r.keystore_id == 0) <;>
        cases h4 : (["2", "3", "4"] : List String).contains r.key_state <;>
          simp only [rotationKey.perform_action, rotationEligible, h1, h2, h3, h4,
            Bool.not_false, Bool.not_true, Bool.true_and, Bool.false_and,
            Bool.and_true, Bool.and_false, Bool.and_self,
            Bool.false_eq_true, ite_true, ite_false]

/-- Characterization of disableRotationKey.perform_action: identical gating,
then the single disable_key_rotation SDK call. -/
lemma disableRotationKey_perform_eq {Resp Exc : Type} (c : Client Resp Exc)
    (r : Resource) (s : String) :
    disableRotationKey.perform_action c r s =
      if rotationEligible r then
        match c.disable_key_rotation { key_id := r.key_id, sequence := s } with
        | Except.error e =>
          { result := Except.error e,
            calls := [SdkCall.disableKeyRotation { key_id := r.key_id, sequence := s }],
            finalResource := r }
        | Except.ok v =>
          { result := Except.ok (ActionRet.response v),
            calls := [SdkCall.disableKeyRotation { key_id := r.key_id, sequence := s }],
            finalResource := r }
      else
        { result := Except.ok ActionRet.zero, calls := [], finalResource := r } := by
  cases h1 : (r.default_key_flag == "1") <;>
    cases h2 : rotationKey.notSupportList.contains r.key_spec <;>
      cases h3 : (r.keystore_id == 0) <;>
        cases h4 : (["2", "3", "4"] : List String).contains r.key_state <;>
          simp only [disableRotationKey.perform_action, rotationEligible,
            notSupportList_agree, h1, h2, h3, h4,
            Bool.not_false, Bool.not_true, Bool.true_and, Bool.false_and,
            Bool.and_true, Bool.and_false, Bool.and_self,
            Bool.false_eq_true, ite_true, ite_false]

/-- The create loop issues no list_keys call. -/
lemma createLoop_no_listKeys {Resp Exc : Type} (c : Client Resp Exc)
    (arr : List String) :
    ∀ l : List String,
      (createKey.createLoop c arr l).2.filter SdkCall.isListKeys = []
  | [] => rfl
  | a :: rest => by
    simp only [createKey.createLoop]
    cases h : arr.contains a
    · rw [if_neg (by decide)]
      cases hv : c.create_key { key_alias := a } with
      | error e => rfl
      | ok v => exact createLoop_no_listKeys c arr rest
    · rw [if_pos rfl]
      exact createLoop_no_listKeys c arr rest

/-- The create loop issues at most one SDK request per element of the alias
list. -/
lemma createLoop_length_le {Resp Exc : Type} (c : Client Resp Exc)
    (arr : List String) :
    ∀ l : List String,
      (createKey.createLoop c arr l).2.length ≤ l.length
  | [] => Nat.le_refl 0
  | a :: rest => by
    simp only [createKey.createLoop]
    cases h : arr.contains a
    · rw [if_neg (by decide)]
      cases hv : c.create_key { key_alias := a } with
      | error e => exact Nat.succ_le_succ (Nat.zero_le rest.length)
      | ok v => exact Nat.succ_le_succ (createLoop_length_le c arr rest)
    · rw [if_pos rfl]
      exact Nat.le_succ_of_le (createLoop_length_le c arr rest)

/-- The create loop either finishes normally or propagates some exception. -/
lemma createLoop_result_cases {Resp Exc : Type} (c : Client Resp Exc)
    (arr : List String) :
    ∀ l : List String,
      (createKey.createLoop c arr l).1 = Except.ok () ∨
        ∃ e, (createKey.createLoop c arr l).1 = Except.error e
  | [] => Or.inl rfl
  | a :: rest => by
    simp only [createKey.createLoop]
    cases h : arr.contains a
    · rw [if_neg (by decide)]
      cases hv : c.create_key { key_alias := a } with
      | error e => exact Or.inr ⟨e, rfl⟩
      | ok v => exact createLoop_result_cases c arr rest
    · rw [if_pos rfl]
      exact createLoop_result_cases c arr rest

/-- When every create call succeeds, the create loop issues exactly one
create request per alias outside arr, in list order. -/
lemma createLoop_ok_calls {Resp Exc : Type} (c : Client Resp Exc)
    (arr : List String) (hc : ∀ b, ∃ v, c.create_key b = Except.ok v) :
    ∀ l : List String,
      (createKey.createLoop c arr l).2 =
        (l.filter (fun a => !(arr.contains a))).map
          (fun a => SdkCall.createKey { key_alias := a })
  | [] => rfl
  | a :: rest => by
    cases h : arr.contains a
    · have hm : a ∉ arr := by simpa using h
      obtain ⟨v, hv⟩ := hc { key_alias := a }
      simp [createKey.createLoop, h, hm, hv, createLoop_ok_calls c arr hc rest]
    · have hm : a ∈ arr := by simpa using h
      simp [createKey.createLoop, h, hm, createLoop_ok_calls c arr hc rest]

/-- C1: enable_key_rotation issues its single SDK request exactly when the
resource passes all four inline eligibility checks (default_key_flag not 1,
key_spec outside the unsupported set, keystore_id 0, key_state among 2, 3,
4), and otherwise returns 0 having issued no SDK call. -/
theorem rotationKey_gate_correct {Resp Exc : Type} (c : Client Resp Exc)
    (r : Resource) (s : String) :
    (rotationEligible r = true →
      (rotationKey.perform_action c r s).calls =
        [SdkCall.enableKeyRotation { key_id := r.key_id, sequence := s }]) ∧
    (rotationEligible r = false →
      (rotationKey.perform_action c r s).result = Except.ok ActionRet.zero ∧
        (rotationKey.perform_action c r s).calls = []) := by
  rw [rotationKey_perform_eq]
  constructor
  · intro h
    cases hv : c.enable_key_rotation { key_id := r.key_id, sequence := s } <;>
      simp [h, hv]
  · intro h
    simp [h]

/-- Witness for C1 at two concrete resources, one eligible and one default
key. -/
theorem rotationKey_gate_correct_witness :
    ((rotationKey.perform_action okClient rEligible "s").calls =
      [SdkCall.enableKeyRotation { key_id := rEligible.key_id, sequence := "s" }]) ∧
    ((rotationKey.perform_action okClient rDefaultKey "s").result =
        Except.ok ActionRet.zero ∧
      (rotationKey.perform_action okClient rDefaultKey "s").calls = []) :=
  ⟨(rotationKey_gate_correct okClient rEligible "s").1 (by decide),
   (rotationKey_gate_correct okClient rDefaultKey "s").2 (by decide)⟩

/-- C2: whenever an SDK client call raises, the enclosing action re-raises
exactly that exception unchanged and performs no further work: the trace ends
with the failing request. Covered are the four perform_action methods (the
rotation ones on an eligible resource, since an ineligible one never reaches
the client), the uncaught list_keys call of createKey.process, and the
caught-and-re-raised create_key call inside the create loop. -/
theorem sdk_exception_reraised {Resp Exc : Type} (c : Client Resp Exc)
    (r : Resource) (s : String) (e : Exc) (d : PolicyData)
    (arr rest : List String) (a : String) :
    (rotationEligible r = true →
      c.enable_key_rotation { key_id := r.key_id, sequence := s } = Except.error e →
      (rotationKey.perform_action c r s).result = Except.error e ∧
        (rotationKey.perform_action c r s).calls =
          [SdkCall.enableKeyRotation { key_id := r.key_id, sequence := s }]) ∧
    (rotationEligible r = true →
      c.disable_key_rotation { key_id := r.key_id, sequence := s } = Except.error e →
      (disableRotationKey.perform_action c r s).result = Except.error e ∧
        (disableRotationKey.perform_action c r s).calls =
          [SdkCall.disableKeyRotation { key_id := r.key_id, sequence := s }]) ∧
    (c.enable_key { key_id := r.key_id, sequence := s } = Except.error e →
      (enableKey.perform_action c r s).result = Except.error e ∧
        (enableKey.perform_action c r s).calls =
          [SdkCall.enableKey { key_id := r.key_id, sequence := s }]) ∧
    (c.disable_key { key_id := r.key_id, sequence := s } = Except.error e →
      (disableKey.perform_action c r s).result = Except.error e ∧
        (disableKey.perform_action c r s).calls =
          [SdkCall.disableKey { key_id := r.key_id, sequence := s }]) ∧
    (c.list_keys { key_spec := "ALL", limit := "1000" } = Except.error e →
      (createKey.process c d r).result = Except.error e ∧
        (createKey.process c d r).calls =
          [SdkCall.listKeys { key_spec := "ALL", limit := "1000" }]) ∧
    (arr.contains a = false →
      c.create_key { key_alias := a } = Except.error e →
      createKey.createLoop c arr (a :: rest) =
        (Except.error e, [SdkCall.createKey { key_alias := a }])) := by
  refine ⟨?_, ?_, ?_, ?_, ?_, ?_⟩
  · intro hE hv
    rw [rotationKey_perform_eq]
    simp [hE, hv]
  · intro hE hv
    rw [disableRotationKey_perform_eq]
    simp [hE, hv]
  · intro hv
    simp [enableKey.perform_action, hv]
  · intro hv
    simp [disableKey.perform_action, hv]
  · intro hl
    simp [createKey.process, hl]
  · intro h hv
    have hm : a ∉ arr := by simpa using h
    simp [createKey.createLoop, hm, hv]

/-- Witness for C2 on a client whose every call raises the exception boom. -/
theorem sdk_exception_reraised_witness :
    ((rotationKey.perform_action errClient rEligible "s").result = Except.error "boom" ∧
      (rotationKey.perform_action errClient rEligible "s").calls =
        [SdkCall.enableKeyRotation { key_id := "k1", sequence := "s" }]) ∧
    ((disableRotationKey.perform_action errClient rEligible "s").result = Except.error "boom" ∧
      (disableRotationKey.perform_action errClient rEligible "s").calls =
        [SdkCall.disableKeyRotation { key_id := "k1", sequence := "s" }]) ∧
    ((enableKey.perform_action errClient rEligible "s").result = Except.error "boom" ∧
      (enableKey.perform_action errClient rEligible "s").calls =
        [SdkCall.enableKey { key_id := "k1", sequence := "s" }]) ∧
    ((disableKey.perform_action errClient rEligible "s").result = Except.error "boom" ∧
      (disableKey.perform_action errClient rEligible "s").calls =
        [SdkCall.disableKey { key_id := "k1", sequence := "s" }]) ∧
    ((createKey.process errClient { key_aliases := none, obs_url := none } rEligible).result =
        Except.error "boom" ∧
      (createKey.process errClient { key_aliases := none, obs_url := none } rEligible).calls =
        [SdkCall.listKeys { key_spec := "ALL", limit := "1000" }]) ∧
    (createKey.createLoop errClient ["default"] ["a"] =
      (Except.error "boom", [SdkCall.createKey { key_alias := "a" }])) := by
  have T := sdk_exception_reraised errClient rEligible "s" "boom"
    { key_aliases := none, obs_url := none } ["default"] [] "a"
  exact ⟨T.1 (by decide) rfl, T.2.1 (by decide) rfl, T.2.2.1 rfl, T.2.2.2.1 rfl,
    T.2.2.2.2.1 rfl, T.2.2.2.2.2 (by decide) rfl⟩

/-- C3 counterexample: on a default key, which fails the inline eligibility
checks, enable_key_rotation issues no SDK request while enable_key still
issues its request, so the five actions are not all gated by the same
checks. -/
theorem gate_uniformity_cex :
    (rotationKey.perform_action okClient rDefaultKey "s").calls = [] ∧
    (enableKey.perform_action okClient rDefaultKey "s").calls =
      [SdkCall.enableKey { key_id := "k2", sequence := "s" }] := by
  exact ⟨by decide, by decide⟩

/-- C3 amended: enable_key_rotation and disable_key_rotation are gated by
identical eligibility checks and decide identically on every resource, while
enable_key, disable_key and create-key issue their SDK request
unconditionally. -/
theorem rotation_gates_agree {Resp Exc Resp2 Exc2 : Type} (c : Client Resp Exc)
    (c2 : Client Resp2 Exc2) (r : Resource) (s s2 : String) (d : PolicyData) :
    ((rotationKey.perform_action c r s).calls = [] ↔
      (disableRotationKey.perform_action c2 r s2).calls = []) ∧
    (enableKey.perform_action c r s).calls =
      [SdkCall.enableKey { key_id := r.key_id, sequence := s }] ∧
    (disableKey.perform_action c r s).calls =
      [SdkCall.disableKey { key_id := r.key_id, sequence := s }] ∧
    (createKey.process c d r).calls.head? =
      some (SdkCall.listKeys { key_spec := "ALL", limit := "1000" }) := by
  refine ⟨?_, ?_, ?_, ?_⟩
  · rw [rotationKey_perform_eq, disableRotationKey_perform_eq]
    cases hE : rotationEligible r
    · simp
    · cases hv : c.enable_key_rotation { key_id := r.key_id, sequence := s } <;>
        cases hv2 : c2.disable_key_rotation { key_id := r.key_id, sequence := s2 } <;>
          simp
  · cases hv : c.enable_key { key_id := r.key_id, sequence := s } <;>
      simp [enableKey.perform_action, hv]
  · cases hv : c.disable_key { key_id := r.key_id, sequence := s } <;>
      simp [disableKey.perform_action, hv]
  · cases hl : c.list_keys { key_spec := "ALL", limit := "1000" } <;>
      simp [createKey.process, hl]

/-- C4 counterexample: the create-key action succeeds on a one-alias policy,
yet its request bodies carry no key_id and no sequence field and the action
returns None rather than the SDK response 7 it received. -/
theorem create_returns_none_cex :
    okClient.create_key { key_alias := "bbb" } = Except.ok 7 ∧
    (createKey.process okClient { key_aliases := some ["bbb"], obs_url := none }
        rEligible).calls =
      [SdkCall.listKeys { key_spec := "ALL", limit := "1000" },
       SdkCall.createKey { key_alias := "bbb" }] ∧
    (createKey.process okClient { key_aliases := some ["bbb"], obs_url := none }
        rEligible).result = Except.ok ActionRet.noneRet := by
  exact ⟨rfl, by decide, by decide⟩

/-- C4 amended: the four OperateKey actions build their body from the
resource key_id and the fresh sequence, issue exactly that request and return
the successful SDK response unchanged (the two rotation actions on eligible
resources); create-key instead builds its bodies from fixed literals and
policy aliases and always returns None or re-raises, never the response. -/
theorem action_request_response {Resp Exc : Type} (c : Client Resp Exc)
    (r : Resource) (s : String) (v : Resp) (d : PolicyData) :
    (rotationEligible r = true →
      c.enable_key_rotation { key_id := r.key_id, sequence := s } = Except.ok v →
      rotationKey.perform_action c r s =
        { result := Except.ok (ActionRet.response v),
          calls := [SdkCall.enableKeyRotation { key_id := r.key_id, sequence := s }],
          finalResource := r }) ∧
    (rotationEligible r = true →
      c.disable_key_rotation { key_id := r.key_id, sequence := s } = Except.ok v →
      disableRotationKey.perform_action c r s =
        { result := Except.ok (ActionRet.response v),
          calls := [SdkCall.disableKeyRotation { key_id := r.key_id, sequence := s }],
          finalResource := r }) ∧
    (c.enable_key { key_id := r.key_id, sequence := s } = Except.ok v →
      enableKey.perform_action c r s =
        { result := Except.ok (ActionRet.response v),
          calls := [SdkCall.enableKey { key_id := r.key_id, sequence := s }],
          finalResource := r }) ∧
    (c.disable_key { key_id := r.key_id, sequence := s } = Except.ok v →
      disableKey.perform_action c r s =
        { result := Except.ok (ActionRet.response v),
          calls := [SdkCall.disableKey { key_id := r.key_id, sequence := s }],
          finalResource := r }) ∧
    ((createKey.process c d r).result = Except.ok ActionRet.noneRet ∨
      ∃ e, (createKey.process c d r).result = Except.error e) := by
  refine ⟨?_, ?_, ?_, ?_, ?_⟩
  · intro hE hv
    rw [rotationKey_perform_eq]
    simp [hE, hv]
  · intro hE hv
    rw [disableRotationKey_perform_eq]
    simp [hE, hv]
  · intro hv
    simp [enableKey.perform_action, hv]
  · intro hv
    simp [disableKey.perform_action, hv]
  · cases hl : c.list_keys { key_spec := "ALL", limit := "1000" } with
    | error e => exact Or.inr ⟨e, by simp [createKey.process, hl]⟩
    | ok resp =>
      rcases createLoop_result_cases c
          ("default" :: resp.key_details.map KeyDetails.key_alias)
          (d.key_aliases.getD []) with hok | ⟨e, he⟩
      · exact Or.inl (by simp [createKey.process, hl, hok])
      · exact Or.inr ⟨e, by simp [createKey.process, hl, he]⟩

/-- Witness for C4 amended on a client whose every call succeeds. -/
theorem action_request_response_witness :
    (rotationKey.perform_action okClient rEligible "s" =
      { result := Except.ok (ActionRet.response 1),
        calls := [SdkCall.enableKeyRotation { key_id := "k1", sequence := "s" }],
        finalResource := rEligible }) ∧
    (disableRotationKey.perform_action okClient rEligible "s" =
      { result := Except.ok (ActionRet.response 2),
        calls := [SdkCall.disableKeyRotation { key_id := "k1", sequence := "s" }],
        finalResource := rEligible }) ∧
    (enableKey.perform_action okClient rEligible "s" =
      { result := Except.ok (ActionRet.response 3),
        calls := [SdkCall.enableKey { key_id := "k1", sequence := "s" }],
        finalResource := rEligible }) ∧
    (disableKey.perform_action okClient rEligible "s" =
      { result := Except.ok (ActionRet.response 4),
        calls := [SdkCall.disableKey { key_id := "k1", sequence := "s" }],
        finalResource := rEligible }) ∧
    ((createKey.process okClient { key_aliases := some ["bbb"], obs_url := none }
          rEligible).result = Except.ok ActionRet.noneRet ∨
      ∃ e, (createKey.process okClient { key_aliases := some ["bbb"], obs_url := none }
          rEligible).result = Except.error e) :=
  ⟨(action_request_response okClient rEligible "s" 1
      { key_aliases := some ["bbb"], obs_url := none }).1 (by decide) rfl,
   (action_request_response okClient rEligible "s" 2
      { key_aliases := some ["bbb"], obs_url := none }).2.1 (by decide) rfl,
   (action_request_response okClient rEligible "s" 3
      { key_aliases := some ["bbb"], obs_url := none }).2.2.1 rfl,
   (action_request_response okClient rEligible "s" 4
      { key_aliases := some ["bbb"], obs_url := none }).2.2.2.1 rfl,
   (action_request_response okClient rEligible "s" 1
      { key_aliases := some ["bbb"], obs_url := none }).2.2.2.2⟩

/-- C5: every invocation of createKey.process issues exactly one list_keys
SDK call, always with the fixed body of key_spec ALL and limit 1000, and the
create loop never issues a follow-up list call. -/
theorem single_list_call {Resp Exc : Type} (c : Client Resp Exc)
    (d : PolicyData) (r : Resource) :
    (createKey.process c d r).calls.filter SdkCall.isListKeys =
      [SdkCall.listKeys { key_spec := "ALL", limit := "1000" }] := by
  cases hl : c.list_keys { key_spec := "ALL", limit := "1000" } with
  | error e => simp [createKey.process, hl, SdkCall.isListKeys]
  | ok resp =>
    have hloop := createLoop_no_listKeys c
      ("default" :: resp.key_details.map KeyDetails.key_alias) (d.key_aliases.getD [])
    simp [createKey.process, hl, SdkCall.isListKeys, hloop]

/-- C6: the registered policy surface of the kms resource is exactly the five
action names in source order, the create-key parameters key_aliases of type
array and obs_url of type string, and the single filter all_keys_disable. -/
theorem registered_schema_surface :
    Kms.action_registry.map TypeSchema.typeName =
      ["enable_key_rotation", "disable_key_rotation", "enable_key",
       "disable_key", "create-key"] ∧
    createKey.schema.props = [("key_aliases", "array"), ("obs_url", "string")] ∧
    Kms.filter_registry.map TypeSchema.typeName = ["all_keys_disable"] ∧
    Kms.resourceName = "kms" :=
  ⟨rfl, rfl, rfl, rfl⟩

/-- C7 counterexample: with a policy whose key_aliases repeats the fresh
alias x, one invocation of createKey.process issues the identical mutating
create_key request twice, since created aliases are never added to the seen
set. -/
theorem single_issue_cex :
    ((createKey.process okClient { key_aliases := some ["x", "x"], obs_url := none }
        rEligible).calls.count (SdkCall.createKey { key_alias := "x" })) = 2 := by
  decide

/-- C7 amended: each of the four OperateKey actions issues at most one SDK
request per resource per invocation, and create-key issues at most one
create request per element of key_aliases besides its single list call, with
no request ever reissued after an exception; a repeated fresh alias however
yields one create request per occurrence. -/
theorem no_reissue {Resp Exc : Type} (c : Client Resp Exc) (r : Resource)
    (s : String) (d : PolicyData) (arr l : List String) :
    (rotationKey.perform_action c r s).calls.length ≤ 1 ∧
    (disableRotationKey.perform_action c r s).calls.length ≤ 1 ∧
    (enableKey.perform_action c r s).calls.length ≤ 1 ∧
    (disableKey.perform_action c r s).calls.length ≤ 1 ∧
    (createKey.createLoop c arr l).2.length ≤ l.length ∧
    (createKey.process c d r).calls.length ≤ 1 + (d.key_aliases.getD []).length := by
  refine ⟨?_, ?_, ?_, ?_, createLoop_length_le c arr l, ?_⟩
  · rw [rotationKey_perform_eq]
    cases hE : rotationEligible r
    · simp
    · cases hv : c.enable_key_rotation { key_id := r.key_id, sequence := s } <;> simp
  · rw [disableRotationKey_perform_eq]
    cases hE : rotationEligible r
    · simp
    · cases hv : c.disable_key_rotation { key_id := r.key_id, sequence := s } <;> simp
  · cases hv : c.enable_key { key_id := r.key_id, sequence := s } <;>
      simp [enableKey.perform_action, hv]
  · cases hv : c.disable_key { key_id := r.key_id, sequence := s } <;>
      simp [disableKey.perform_action, hv]
  · cases hl : c.list_keys { key_spec := "ALL", limit := "1000" } with
    | error e =>
      simp only [createKey.process, hl, List.length_cons, List.length_nil]
      omega
    | ok resp =>
      have hlen := createLoop_length_le c
        ("default" :: resp.key_details.map KeyDetails.key_alias) (d.key_aliases.getD [])
      simp only [createKey.process, hl, List.length_cons]
      omega

/-- C8: when the list call succeeds and every create call succeeds, the
create loop issues one create request, in list order, for exactly those
elements of key_aliases that are neither the literal default nor an alias of
the list response, so an unseen alias occurring twice is created twice. -/
theorem create_alias_loop {Resp Exc : Type} (c : Client Resp Exc) (d : PolicyData)
    (r : Resource) (resp : ListKeysResponse)
    (hl : c.list_keys { key_spec := "ALL", limit := "1000" } = Except.ok resp)
    (hc : ∀ b, ∃ v, c.create_key b = Except.ok v) :
    (createKey.process c d r).calls =
      SdkCall.listKeys { key_spec := "ALL", limit := "1000" } ::
        ((d.key_aliases.getD []).filter
            (fun a => !(("default" :: resp.key_details.map KeyDetails.key_alias).contains a))).map
          (fun a => SdkCall.createKey { key_alias := a }) := by
  have hloop := createLoop_ok_calls c
    ("default" :: resp.key_details.map KeyDetails.key_alias) hc (d.key_aliases.getD [])
  simp [createKey.process, hl, hloop]

/-- Witness for C8: with one existing key aliased existing and the policy
list existing, new, new, default, exactly the two new requests are issued
after the list call. -/
theorem create_alias_loop_witness :
    (createKey.process okClient
        { key_aliases := some ["existing", "new", "new", "default"], obs_url := none }
        rEligible).calls =
      [SdkCall.listKeys { key_spec := "ALL", limit := "1000" },
       SdkCall.createKey { key_alias := "new" },
       SdkCall.createKey { key_alias := "new" }] := by
  have T := create_alias_loop okClient
    { key_aliases := some ["existing", "new", "new", "default"], obs_url := none }
    rEligible { key_details := [{ key_alias := "existing" }] } rfl (fun b => ⟨7, rfl⟩)
  exact T.trans (by decide)

/-- C9: the obs_url parameter is never read: two policies agreeing on
key_aliases give identical outcomes of the create-key action, whatever their
obs_url. -/
theorem obs_url_unused {Resp Exc : Type} (c : Client Resp Exc)
    (d1 d2 : PolicyData) (r : Resource)
    (h : d1.key_aliases = d2.key_aliases) :
    createKey.process c d1 r = createKey.process c d2 r := by
  unfold createKey.process
  rw [h]

/-- Witness for C9 at two concrete policies differing only in obs_url. -/
theorem obs_url_unused_witness :
    createKey.process okClient { key_aliases := some ["bbb"], obs_url := none } rEligible =
      createKey.process okClient
        { key_aliases := some ["bbb"], obs_url := some "https" } rEligible :=
  obs_url_unused okClient { key_aliases := some ["bbb"], obs_url := none }
    { key_aliases := some ["bbb"], obs_url := some "https" } rEligible rfl

/-- C10: no action mutates the resource record it is given: the resource at
the end of every action, on every path, equals the resource passed in. -/
theorem resource_not_mutated {Resp Exc : Type} (c : Client Resp Exc) (r : Resource)
    (s : String) (d : PolicyData) :
    (rotationKey.perform_action c r s).finalResource = r ∧
    (disableRotationKey.perform_action c r s).finalResource = r ∧
    (enableKey.perform_action c r s).finalResource = r ∧
    (disableKey.perform_action c r s).finalResource = r ∧
    (createKey.process c d r).finalResource = r := by
  refine ⟨?_, ?_, ?_, ?_, ?_⟩
  · rw [rotationKey_perform_eq]
    cases hE : rotationEligible r
    · simp
    · cases hv : c.enable_key_rotation { key_id := r.key_id, sequence := s } <;> simp
  · rw [disableRotationKey_perform_eq]
    cases hE : rotationEligible r
    · simp
    · cases hv : c.disable_key_rotation { key_id := r.key_id, sequence := s } <;> simp
  · cases hv : c.enable_key { key_id := r.key_id, sequence := s } <;>
      simp [enableKey.perform_action, hv]
  · cases hv : c.disable_key { key_id := r.key_id, sequence := s } <;>
      simp [disableKey.perform_action, hv]
  · cases hl : c.list_keys { key_spec := "ALL", limit := "1000" } <;>
      simp [createKey.process, hl]
